import Mathlib

/-!
Shallow embedding of the PulseFeedback repository (whop-app), covering:

* `src/whop-app/app/api/creator-feedback/route.ts` — the `POST` handler for
  `/api/creator-feedback`;
* `src/whop-app/app/pulse/dashboard/DashboardContent.tsx` — the dashboard
  view-model: hot-post ranking, message sorting, pagination, tab filters and
  client-side error handling;
* `src/whop-app/supabase/migrations/add_creator_feedback.sql` — the shape of
  the `creator_feedback` row.

JavaScript values that can occur in a parsed JSON body are modelled by
`JsValue`; machine integers and timestamps are modelled by `Int` (millisecond
epoch values, the result of `new Date(x).getTime()`); fallible steps are
modelled by `Except`/`Option`.
-/

/-- A JSON value as seen by the route after `await request.json()`.
`vother` stands for arrays and objects (always truthy, not strings, and
without a `trim` method). -/
inductive JsValue where
  | vstr (s : String)
  | vnum (n : Int)
  | vbool (b : Bool)
  | vnull
  | vother
deriving DecidableEq

/-- JavaScript truthiness of a `JsValue`: `''`, `0`, `false` and `null` are
falsy; every other value modelled here is truthy. -/
def jsTruthy : JsValue → Bool
  | .vstr s => s != ""
  | .vnum n => n != 0
  | .vbool b => b
  | .vnull => false
  | .vother => true

/-- The set of characters removed by JavaScript `String.prototype.trim`
(ASCII whitespace, line terminators, NBSP and the BOM; the further Unicode
space separators are irrelevant to the repository). -/
def isJsWhitespace (ch : Char) : Bool :=
  ch == ' ' || ch == '\t' || ch == '\n' || ch == '\r' || ch == '\x0B' ||
    ch == '\x0C' || ch == '\u00A0' || ch == '\uFEFF'

/-- Drop leading and trailing JS whitespace from a list of characters. -/
def trimCharList (l : List Char) : List Char :=
  ((l.dropWhile isJsWhitespace).reverse.dropWhile isJsWhitespace).reverse

/-- Embedding of JavaScript `String.prototype.trim`. -/
def jsTrim (s : String) : String :=
  String.mk (trimCharList s.data)

/-- A string with no leading and no trailing JS whitespace. -/
def noEdgeWhitespace (s : String) : Prop :=
  (∀ c ∈ s.data.head?, isJsWhitespace c = false) ∧
    (∀ c ∈ s.data.getLast?, isJsWhitespace c = false)

/-- Result of `requireCreator()` when it does not throw
(route.ts line 10): the session's company and user ids, either of which the
surrounding platform may leave unset. -/
structure AuthCtx where
  companyId : Option String
  userId : Option String
deriving DecidableEq

/-- The creator row returned by `getCreatorForCompany` (route.ts line 36);
only its `id` is read by the route. -/
structure Creator where
  id : String
deriving DecidableEq

/-- Outcome of the `supabaseAdmin.from('creator_feedback').insert(...)
.select().single()` call (route.ts lines 45-56): either a storage error, or
success, in which case the database fills in the generated `id` and
`created_at` and returns the inserted row. -/
inductive InsertOutcome where
  | fail
  | ok (id : String) (createdAt : Int)
deriving DecidableEq

/-- A `creator_feedback` row, following
`supabase/migrations/add_creator_feedback.sql` lines 2-11: `user_id` and
`subject` are nullable, the rest is NOT NULL. -/
structure FeedbackRow where
  id : String
  creator_id : String
  company_id : String
  user_id : Option String
  category : String
  subject : Option String
  message : String
  created_at : Int
deriving DecidableEq

/-- Body of a `NextResponse.json(...)` produced by the route: either
an object with an `error` string or an object with a `data` row. -/
inductive RespBody where
  | err (msg : String)
  | data (row : FeedbackRow)
deriving DecidableEq

/-- An HTTP response of the route: status code plus JSON body. -/
structure RouteResponse where
  status : Nat
  body : RespBody
deriving DecidableEq

/-- The destructured request body
(route.ts line 20, `const (category, message, subject) = body ?? ()`):
each field is absent (`none`) or a JSON value. A non-object body destructures
to three absent fields. -/
structure ReqBody where
  category : Option JsValue
  message : Option JsValue
  subject : Option JsValue
deriving DecidableEq

/-- The category allow-list, route.ts line 6. -/
def ALLOWED_CATEGORIES : List String := ["bug", "feedback", "idea", "other"]

/-- Embedding of `subject?.trim() || null` (route.ts line 52): absent or
`null` subjects short-circuit to `undefined` and then to `null`; a string is
trimmed, an empty trim yielding `null`; any other value throws a `TypeError`
(`.trim` is not a function), which the surrounding `try` catches. -/
def subjectTrim : Option JsValue → Except String (Option String)
  | none => .ok none
  | some JsValue.vnull => .ok none
  | some (JsValue.vstr s) => .ok (if jsTrim s = "" then none else some (jsTrim s))
  | some _ => .error "subject.trim is not a function"

/-- The body of the `try` block of `POST` (route.ts lines 9-66), as a
function of the outcomes of its four external calls: `requireCreator`
(`auth`, a thrown error carries its message), `request.json()` (`body`),
`getCreatorForCompany` (`creator`) and the supabase insert (`insert`).
An `Except.error` is an exception propagating to the `catch` block. -/
def tryPOST (auth : Except String AuthCtx) (body : Except String ReqBody)
    (creator : Option Creator) (insert : InsertOutcome) :
    Except String RouteResponse :=
  match auth with
  | .error e => .error e
  | .ok a =>
    match a.companyId with
    | none => .ok ⟨500, .err "Company ID missing"⟩
    | some cid =>
      -- `if (!auth.companyId)`: both an absent and an empty company id are falsy
      if cid == "" then .ok ⟨500, .err "Company ID missing"⟩
      else
        match body with
        | .error e => .error e
        | .ok b =>
          match b.category with
          | some (JsValue.vstr c) =>
            -- `if (!category || !ALLOWED_CATEGORIES.includes(category))`
            if !(jsTruthy (JsValue.vstr c)) || !(ALLOWED_CATEGORIES.contains c) then
              .ok ⟨400, .err "Invalid category"⟩
            else
              match b.message with
              | some (JsValue.vstr m) =>
                -- `if (!message || typeof message !== 'string' || !message.trim())`
                if !(jsTruthy (JsValue.vstr m)) || jsTrim m == "" then
                  .ok ⟨400, .err "Message is required"⟩
                else
                  match creator with
                  | none => .ok ⟨404, .err "Creator not found for company"⟩
                  | some cr =>
                    match subjectTrim b.subject with
                    | .error e => .error e
                    | .ok subj =>
                      match insert with
                      | .fail => .ok ⟨500, .err "Failed to submit feedback"⟩
                      | .ok rid t =>
                        .ok ⟨201, .data
                          ⟨rid, cr.id, cid, a.userId, c, subj, jsTrim m, t⟩⟩
              | _ =>
                -- a missing, falsy or non-string message fails the same guard
                .ok ⟨400, .err "Message is required"⟩
          | _ =>
            -- a missing or falsy category is rejected by `!category`, and
            -- `includes` matches none of the non-string values
            .ok ⟨400, .err "Invalid category"⟩

/-- Embedding of `String.prototype.includes` (used on the caught error
message, route.ts line 70). -/
def strIncludes (s sub : String) : Bool :=
  (List.range (s.data.length + 1)).any fun i => List.isPrefixOf sub.data (s.data.drop i)

/-- The full `POST` handler of `/api/creator-feedback` (route.ts lines 8-82):
the `try` body together with the `catch` block, which answers 401 when the
thrown message contains `Unauthorized` and 500 otherwise. -/
def POST (auth : Except String AuthCtx) (body : Except String ReqBody)
    (creator : Option Creator) (insert : InsertOutcome) : RouteResponse :=
  match tryPOST auth body creator insert with
  | .ok r => r
  | .error msg =>
    if strIncludes msg "Unauthorized" then ⟨401, .err "Unauthorized"⟩
    else ⟨500, .err "Internal server error"⟩

/-- A reply row as used by the dashboard (`Reply` in DashboardContent.tsx):
only its `id`, `is_public` and `reply_text` fields are read. -/
structure ReplyRec where
  id : String
  is_public : Bool
  reply_text : String
deriving DecidableEq

/-- A message as held in the dashboard state
(`MessageWithReactions`, DashboardContent.tsx lines 25-28): a `Message` with
an optional list of replies and an optional reaction count. `created_at` is
the millisecond timestamp `new Date(m.created_at).getTime()`. -/
structure DashMessage where
  id : String
  message : String
  tag : String
  product_category : Option String
  reviewed : Bool
  created_at : Int
  reply : Option (List ReplyRec)
  reaction_count : Option Nat
deriving DecidableEq

/-- The reaction count as read by the dashboard, `m.reaction_count || 0`
(an absent count is falsy, and a zero count maps to `0` either way). -/
def reactionCount (m : DashMessage) : Nat :=
  match m.reaction_count with
  | none => 0
  | some n => n

/-- The sort comparator of `fetchMessages` (DashboardContent.tsx
lines 114-118): reaction count difference first, `created_at` difference on
ties, both oriented so that larger values come first. -/
def feedComparator (a b : DashMessage) : Int :=
  let reactionDiff : Int := (reactionCount b : Int) - (reactionCount a : Int)
  if reactionDiff != 0 then reactionDiff
  else b.created_at - a.created_at

/-- The non-strict order induced by `feedComparator`: `a` may stay before
`b` exactly when the comparator does not ask to swap them. -/
def feedLe (a b : DashMessage) : Bool :=
  decide (feedComparator a b ≤ 0)

/-- `sortedMessages` (DashboardContent.tsx line 114):
`Array.prototype.sort` with a consistent comparator is the stable sort by
the comparator's order, embedded as `List.mergeSort`. -/
def sortMessages (l : List DashMessage) : List DashMessage :=
  l.mergeSort feedLe

/-- The hot-posts section of the overview tab (DashboardContent.tsx
lines 488-490): `allMessages.filter(m => (m.reaction_count || 0) >= 5)
.slice(0, 4)`. -/
def hotPostsSection (msgs : List DashMessage) : List DashMessage :=
  (msgs.filter fun m => decide (5 ≤ reactionCount m)).take 4

/-- DashboardContent.tsx line 58. -/
def MESSAGES_PER_PAGE : Nat := 10

/-- Embedding of `Array.prototype.slice(start, stop)` for in-range
arguments. -/
def jsSlice {α : Type} (l : List α) (start stop : Nat) : List α :=
  (l.drop start).take (stop - start)

/-- `paginatedMessages` (DashboardContent.tsx lines 301-304):
`filteredMessages.slice((currentPage - 1) * MESSAGES_PER_PAGE,
currentPage * MESSAGES_PER_PAGE)`. -/
def paginatedMessages (l : List DashMessage) (currentPage : Nat) : List DashMessage :=
  jsSlice l ((currentPage - 1) * MESSAGES_PER_PAGE) (currentPage * MESSAGES_PER_PAGE)

/-- `totalPages` (DashboardContent.tsx line 300):
`Math.ceil(filteredMessages.length / MESSAGES_PER_PAGE)`, the ceiling
division on naturals. -/
def totalPages (l : List DashMessage) : Nat :=
  (l.length + MESSAGES_PER_PAGE - 1) / MESSAGES_PER_PAGE

/-- The concatenation of the displayed pages `1` through `totalPages`. -/
def allPages (l : List DashMessage) : List DashMessage :=
  ((List.range (totalPages l)).map fun i => paginatedMessages l (i + 1)).flatten

/-- `!m.reply || m.reply.length === 0` (DashboardContent.tsx line 279). -/
def hasNoReplies (m : DashMessage) : Bool :=
  match m.reply with
  | none => true
  | some rs => rs.isEmpty

/-- `m.reply && m.reply.length > 0` (DashboardContent.tsx line 282). -/
def hasReplies (m : DashMessage) : Bool :=
  match m.reply with
  | none => false
  | some rs => !rs.isEmpty

/-- The inbox tab list (DashboardContent.tsx line 279): messages without
replies. -/
def inboxMessages (msgs : List DashMessage) : List DashMessage :=
  msgs.filter hasNoReplies

/-- The reviewed tab list (DashboardContent.tsx line 282): messages with
replies or manually marked as reviewed. -/
def reviewedMessages (msgs : List DashMessage) : List DashMessage :=
  msgs.filter fun m => hasReplies m || m.reviewed

/-- The pending metric (DashboardContent.tsx line 276): messages neither
reviewed nor replied to. -/
def pendingMessages (msgs : List DashMessage) : List DashMessage :=
  msgs.filter fun m => !m.reviewed && hasNoReplies m

/-- What a client-side `catch` block does with a failure: whether the error
is caught at all, logged with `console.error`, surfaced with a blocking
`alert(...)`, and surfaced as inline state rendered in the page. -/
structure CatchPolicy where
  caught : Bool
  logsError : Bool
  showsAlert : Bool
  showsInlineError : Bool
deriving DecidableEq

/-- `fetchMessages` catch block (DashboardContent.tsx lines 122-126):
`console.error` only, no alert and no rendered error state. -/
def fetchMessagesCatch : CatchPolicy := ⟨true, true, false, false⟩

/-- `handleSubmitSupportFeedback` catch block (DashboardContent.tsx
lines 179-184): `console.error` plus `setSupportError(...)`, which renders an
inline error box (lines 1026-1030); no `alert`. -/
def submitSupportFeedbackCatch : CatchPolicy := ⟨true, true, false, true⟩

/-- `handleMarkReviewed` catch block (DashboardContent.tsx lines 197-200):
`console.error` plus `alert('Failed to update message')`. -/
def markReviewedCatch : CatchPolicy := ⟨true, true, true, false⟩

/-- `handleDelete` catch block (DashboardContent.tsx lines 208-211). -/
def deleteMessageCatch : CatchPolicy := ⟨true, true, true, false⟩

/-- `handleReply` catch block (DashboardContent.tsx lines 224-227). -/
def replyCatch : CatchPolicy := ⟨true, true, true, false⟩

/-- `handleToggleReplyVisibility` catch block (DashboardContent.tsx
lines 240-243). -/
def toggleReplyVisibilityCatch : CatchPolicy := ⟨true, true, true, false⟩

/-- The six client-side operations named by the spec's error-handling
section, in source order. -/
def clientCatchPolicies : List CatchPolicy :=
  [fetchMessagesCatch, submitSupportFeedbackCatch, markReviewedCatch,
    deleteMessageCatch, replyCatch, toggleReplyVisibilityCatch]

/-- Modelled from the spec: the authentication module at whop-app/lib/auth
(`requireCreator`, declared out of scope and not under src/) rejects an
unauthenticated request by throwing, and the spec states that its auth
errors surface as 401; since the route answers 401 exactly for thrown
messages containing `Unauthorized`, the thrown message is `Unauthorized`. -/
def requireCreatorFailureMessage : String := "Unauthorized"

/-- Auth context of the C3 counterexample. -/
def cexAuth : AuthCtx := ⟨some "company-1", some "user-1"⟩

/-- Request body of the C3 counterexample: an allowed category and a
non-empty message with surrounding whitespace. -/
def cexBody : ReqBody := ⟨some (.vstr "bug"), some (.vstr " hi "), none⟩

/-- The row the route actually persists and returns for `cexBody`. -/
def cexRow : FeedbackRow :=
  ⟨"row-1", "creator-1", "company-1", some "user-1", "bug", none, "hi", 0⟩

/-- A message with the given id and exactly five reactions. -/
def mkHotMsg (i : String) : DashMessage :=
  ⟨i, "m", "question", none, false, 0, none, some 5⟩

/-- Five messages that all qualify for the hot-posts filter. -/
def hotExample : List DashMessage :=
  [mkHotMsg "1", mkHotMsg "2", mkHotMsg "3", mkHotMsg "4", mkHotMsg "5"]

/-- A message with no reactions. -/
def coldMsg : DashMessage := ⟨"c", "m", "question", none, false, 0, none, none⟩

/-- First of two fully tied messages (equal reaction count and
timestamp). -/
def tiedA : DashMessage := ⟨"a", "m", "question", none, false, 7, none, some 2⟩

/-- Second of two fully tied messages. -/
def tiedB : DashMessage := ⟨"b", "m", "question", none, false, 7, none, some 2⟩

/-- A reviewed message without replies. -/
def reviewedNoReplyMsg : DashMessage :=
  ⟨"w", "m", "question", none, true, 0, none, none⟩

theorem jsTrim_of_all_whitespace {s : String} (h : s.data.all isJsWhitespace = true) :
    jsTrim s = "" := by
  have h' : s.data.dropWhile isJsWhitespace = [] :=
    List.dropWhile_eq_nil_iff.mpr (List.all_eq_true.mp h)
  show String.mk (trimCharList s.data) = ""
  rw [trimCharList, h']
  rfl

theorem head_trimCharList_not (l : List Char) :
    ∀ c ∈ (trimCharList l).head?, isJsWhitespace c = false := by
  intro c hc
  unfold trimCharList at hc
  rw [List.head?_reverse] at hc
  set m := l.dropWhile isJsWhitespace with hm
  set k := m.reverse.dropWhile isJsWhitespace with hk
  have hkne : k ≠ [] := by
    intro h
    rw [h] at hc
    simp at hc
  have h1 : k.getLast? = m.reverse.getLast? := by
    conv_rhs => rw [← List.takeWhile_append_dropWhile isJsWhitespace m.reverse]
    rw [List.getLast?_append, ← hk]
    cases hkl : k.getLast? with
    | none => exact absurd (List.getLast?_eq_none_iff.mp hkl) hkne
    | some x => simp
  rw [h1, List.getLast?_reverse] at hc
  have hd := List.head?_dropWhile_not isJsWhitespace l
  rw [← hm] at hd
  cases hh : m.head? with
  | none => rw [hh] at hc; simp at hc
  | some x =>
    rw [hh] at hc hd
    simp at hc
    subst hc
    exact hd

theorem getLast_trimCharList_not (l : List Char) :
    ∀ c ∈ (trimCharList l).getLast?, isJsWhitespace c = false := by
  intro c hc
  unfold trimCharList at hc
  rw [List.getLast?_reverse] at hc
  have hd := List.head?_dropWhile_not isJsWhitespace (l.dropWhile isJsWhitespace).reverse
  cases hh : ((l.dropWhile isJsWhitespace).reverse.dropWhile isJsWhitespace).head? with
  | none => rw [hh] at hc; simp at hc
  | some x =>
    rw [hh] at hc hd
    simp at hc
    subst hc
    exact hd

theorem noEdgeWhitespace_jsTrim (s : String) : noEdgeWhitespace (jsTrim s) :=
  ⟨head_trimCharList_not s.data, getLast_trimCharList_not s.data⟩

theorem feedLe_iff (a b : DashMessage) :
    feedLe a b = true ↔
      (reactionCount b < reactionCount a ∨
        (reactionCount a = reactionCount b ∧ b.created_at ≤ a.created_at)) := by
  unfold feedLe feedComparator
  by_cases hd : ((reactionCount b : Int) - (reactionCount a : Int)) = 0
  · simp [hd]
    omega
  · simp [hd]
    omega

theorem feedLe_trans : ∀ (a b c : DashMessage),
    feedLe a b = true → feedLe b c = true → feedLe a c = true := by
  intro a b c h1 h2
  rw [feedLe_iff] at h1 h2 ⊢
  rcases h1 with h1 | ⟨h1a, h1b⟩ <;> rcases h2 with h2 | ⟨h2a, h2b⟩
  · exact Or.inl (by omega)
  · exact Or.inl (by omega)
  · exact Or.inl (by omega)
  · exact Or.inr ⟨by omega, by omega⟩

theorem feedLe_total : ∀ (a b : DashMessage), (feedLe a b || feedLe b a) = true := by
  intro a b
  by_cases h : feedLe a b = true
  · simp [h]
  · simp only [Bool.or_eq_true]
    right
    rw [feedLe_iff] at h ⊢
    push_neg at h
    by_cases he : reactionCount a = reactionCount b
    · exact Or.inr ⟨he.symm, by omega⟩
    · exact Or.inl (by omega)

theorem join_chunks {α : Type} (k : Nat) (l : List α) :
    ∀ n, (((List.range n).map fun i => (l.drop (i * k)).take k).flatten) = l.take (n * k)
  | 0 => by simp
  | n + 1 => by
    rw [List.range_succ, List.map_append, List.flatten_append, join_chunks k l n]
    simp only [List.map_cons, List.map_nil, List.flatten_cons, List.flatten_nil,
      List.append_nil]
    rw [Nat.succ_mul, List.take_add]

/-- C1: for every POST request to /api/creator-feedback that reaches
validation (authenticated, usable company id, JSON body parsed) whose
`category` field is missing or is not one of the allowed values `bug`,
`feedback`, `idea`, `other`, the route responds with HTTP 400 and the
error message `Invalid category`, regardless of the other fields of the
body and of the creator-lookup and storage outcomes. -/
theorem C1_invalid_category_400 (a : AuthCtx) (cid : String) (b : ReqBody)
    (creator : Option Creator) (insert : InsertOutcome)
    (hcid : a.companyId = some cid) (hcidne : cid ≠ "")
    (hcat : ∀ s ∈ ALLOWED_CATEGORIES, b.category ≠ some (JsValue.vstr s)) :
    POST (.ok a) (.ok b) creator insert = ⟨400, .err "Invalid category"⟩ := by
  have hcid2 : (cid == "") = false := by simpa using hcidne
  rcases hbc : b.category with _ | v
  · simp [POST, tryPOST, hcid, hcid2, hbc]
  · cases v with
    | vstr c =>
      have hmem : c ∉ ALLOWED_CATEGORIES := fun hm => (hcat c hm) hbc
      simp [POST, tryPOST, hcid, hcid2, hbc, hmem]
    | vnum n => simp [POST, tryPOST, hcid, hcid2, hbc]
    | vbool bb => simp [POST, tryPOST, hcid, hcid2, hbc]
    | vnull => simp [POST, tryPOST, hcid, hcid2, hbc]
    | vother => simp [POST, tryPOST, hcid, hcid2, hbc]

/-- Witness for C1 at a concrete request with category `spam`. -/
theorem C1_invalid_category_400_witness :
    POST (.ok ⟨some "company-1", some "user-1"⟩)
        (.ok ⟨some (JsValue.vstr "spam"), some (JsValue.vstr "hello"), none⟩)
        (some ⟨"creator-1"⟩) (.ok "row-1" 0)
      = ⟨400, .err "Invalid category"⟩ :=
  C1_invalid_category_400 ⟨some "company-1", some "user-1"⟩ "company-1"
    ⟨some (JsValue.vstr "spam"), some (JsValue.vstr "hello"), none⟩
    (some ⟨"creator-1"⟩) (.ok "row-1" 0) rfl (by decide) (by decide)

/-- C2: for every POST request that reaches validation and passes the
category check, if the `message` field is missing, not a string, empty or
consists only of whitespace, the route responds with HTTP 400 (`Message is
required`), regardless of the creator-lookup and storage outcomes. -/
theorem C2_invalid_message_400 (a : AuthCtx) (cid : String) (b : ReqBody) (c : String)
    (creator : Option Creator) (insert : InsertOutcome)
    (hcid : a.companyId = some cid) (hcidne : cid ≠ "")
    (hcat : b.category = some (JsValue.vstr c)) (hcmem : c ∈ ALLOWED_CATEGORIES)
    (hmsg : ∀ s, b.message = some (JsValue.vstr s) → s.data.all isJsWhitespace = true) :
    POST (.ok a) (.ok b) creator insert = ⟨400, .err "Message is required"⟩ := by
  have hcid2 : (cid == "") = false := by simpa using hcidne
  have hcne : c ≠ "" := by
    have h := hcmem
    simp [ALLOWED_CATEGORIES] at h
    rcases h with rfl | rfl | rfl | rfl <;> decide
  rcases hbm : b.message with _ | v
  · simp [POST, tryPOST, hcid, hcid2, hcat, hcne, hcmem, hbm, jsTruthy]
  · cases v with
    | vstr s =>
      have hs : jsTrim s = "" := jsTrim_of_all_whitespace (hmsg s hbm)
      simp [POST, tryPOST, hcid, hcid2, hcat, hcne, hcmem, hbm, hs, jsTruthy]
    | vnum n => simp [POST, tryPOST, hcid, hcid2, hcat, hcne, hcmem, hbm, jsTruthy]
    | vbool bb => simp [POST, tryPOST, hcid, hcid2, hcat, hcne, hcmem, hbm, jsTruthy]
    | vnull => simp [POST, tryPOST, hcid, hcid2, hcat, hcne, hcmem, hbm, jsTruthy]
    | vother => simp [POST, tryPOST, hcid, hcid2, hcat, hcne, hcmem, hbm, jsTruthy]

/-- Witness for C2 at a concrete request with a whitespace-only message. -/
theorem C2_invalid_message_400_witness :
    POST (.ok ⟨some "company-1", some "user-1"⟩)
        (.ok ⟨some (JsValue.vstr "bug"), some (JsValue.vstr "   "), none⟩)
        (some ⟨"creator-1"⟩) (.ok "row-1" 0)
      = ⟨400, .err "Message is required"⟩ :=
  C2_invalid_message_400 ⟨some "company-1", some "user-1"⟩ "company-1"
    ⟨some (JsValue.vstr "bug"), some (JsValue.vstr "   "), none⟩ "bug"
    (some ⟨"creator-1"⟩) (.ok "row-1" 0) rfl (by decide) rfl (by decide)
    (by
      intro s hs
      cases hs
      decide)

/-- C3 counterexample: a fully valid submission whose message carries
surrounding whitespace is answered with HTTP 201, but the persisted
record's message is the trimmed string `hi`, not the submitted
string `" hi "` — the record does not equal the submitted fields
verbatim. -/
theorem C3_counterexample :
    POST (.ok cexAuth) (.ok cexBody) (some ⟨"creator-1"⟩) (.ok "row-1" 0)
      = ⟨201, .data cexRow⟩ ∧ cexRow.message ≠ " hi " := by decide

/-- C3 (amended): for every POST request that passes authentication with a
usable company id, has an allowed category, a message whose trim is
non-empty, a subject that is absent, null or a string, a creator record and
a successful insert, the route responds with HTTP 201 and the persisted
record, whose category equals the submitted category, whose message equals
the submitted message with leading and trailing whitespace removed, and
whose subject is the trimmed submitted subject, or null when the subject is
absent, null or whitespace-only. -/
theorem C3_valid_submission_201 (a : AuthCtx) (cid : String) (b : ReqBody)
    (c m : String) (cr : Creator) (rid : String) (t : Int) (subj : Option String)
    (hcid : a.companyId = some cid) (hcidne : cid ≠ "")
    (hcat : b.category = some (JsValue.vstr c)) (hcmem : c ∈ ALLOWED_CATEGORIES)
    (hmsg : b.message = some (JsValue.vstr m)) (hm : jsTrim m ≠ "")
    (hsub : subjectTrim b.subject = .ok subj) :
    POST (.ok a) (.ok b) (some cr) (.ok rid t)
      = ⟨201, .data ⟨rid, cr.id, cid, a.userId, c, subj, jsTrim m, t⟩⟩ := by
  have hcid2 : (cid == "") = false := by simpa using hcidne
  have hcne : c ≠ "" := by
    have hx := hcmem
    simp [ALLOWED_CATEGORIES] at hx
    rcases hx with rfl | rfl | rfl | rfl <;> decide
  have hmne : m ≠ "" := by
    intro hx
    subst hx
    exact hm (by decide)
  simp [POST, tryPOST, jsTruthy, hcid, hcid2, hcat, hcne, hcmem, hmsg, hmne, hm, hsub]

/-- Witness for the amended C3 at a concrete valid submission. -/
theorem C3_valid_submission_201_witness :
    POST (.ok ⟨some "company-1", some "user-1"⟩)
        (.ok ⟨some (JsValue.vstr "idea"), some (JsValue.vstr " hello "),
          some (JsValue.vstr " sub ")⟩)
        (some ⟨"creator-1"⟩) (.ok "row-1" 5)
      = ⟨201, .data ⟨"row-1", "creator-1", "company-1", some "user-1", "idea",
          some "sub", "hello", 5⟩⟩ :=
  C3_valid_submission_201 ⟨some "company-1", some "user-1"⟩ "company-1"
    ⟨some (JsValue.vstr "idea"), some (JsValue.vstr " hello "),
      some (JsValue.vstr " sub ")⟩
    "idea" " hello " ⟨"creator-1"⟩ "row-1" 5 (some "sub")
    rfl (by decide) rfl (by decide) rfl (by decide) rfl

/-- C4: every POST request on which `requireCreator` fails — it throws its
`Unauthorized` error, modelled from the spec by
`requireCreatorFailureMessage` — is answered with HTTP 401, whatever the
body, creator lookup and storage would have been. -/
theorem C4_auth_failure_401 (body : Except String ReqBody)
    (creator : Option Creator) (insert : InsertOutcome) :
    POST (.error requireCreatorFailureMessage) body creator insert
      = ⟨401, .err "Unauthorized"⟩ := rfl

/-- C5 counterexample: with five messages of five reactions each, there is
no threshold for which the hot-posts section shows exactly the messages
whose reaction count exceeds it — `slice(0, 4)` drops the fifth qualifying
message even though its count equals that of the displayed ones. -/
theorem C5_counterexample :
    ¬ ∃ T : Nat, ∀ m ∈ hotExample,
        (m ∈ hotPostsSection hotExample ↔ T < reactionCount m) := by
  rintro ⟨T, h⟩
  have h1 := (h (mkHotMsg "1") (by decide)).mp (by decide)
  have h5 := (h (mkHotMsg "5") (by decide)).mpr h1
  exact absurd h5 (by decide)

/-- C5 (amended): every message shown in the hot-posts section has a
reaction count exceeding the fixed threshold 4 (that is, at least 5);
every message whose count does not exceed the threshold is excluded from
the section; and the section shows at most the first four qualifying
messages. -/
theorem C5_hot_posts_section (msgs : List DashMessage) (m : DashMessage) :
    (m ∈ hotPostsSection msgs → 4 < reactionCount m)
    ∧ (reactionCount m ≤ 4 → m ∉ hotPostsSection msgs)
    ∧ (hotPostsSection msgs).length ≤ 4 := by
  refine ⟨?_, ?_, ?_⟩
  · intro hm
    have hx := List.mem_filter.mp ((List.take_sublist _ _).subset hm)
    have h5 := of_decide_eq_true hx.2
    omega
  · intro hle hm
    have hx := List.mem_filter.mp ((List.take_sublist _ _).subset hm)
    have h5 := of_decide_eq_true hx.2
    omega
  · simp [hotPostsSection, List.length_take]

/-- Witness for the amended C5: a shown hot message exceeds the threshold,
and a reactionless message is excluded. -/
theorem C5_hot_posts_section_witness :
    4 < reactionCount (mkHotMsg "1") ∧ coldMsg ∉ hotPostsSection hotExample :=
  ⟨(C5_hot_posts_section hotExample (mkHotMsg "1")).1 (by decide),
   (C5_hot_posts_section hotExample coldMsg).2.1 (by decide)⟩

/-- C6: after `fetchMessages`, the sorted list satisfies, for every pair of
positions i < j, that the message at i has a strictly greater reaction
count, or an equal reaction count and a `created_at` at least that of the
message at j; and the sort is stable on fully tied elements: two messages
with equal reaction count and equal timestamp keep their original relative
order. -/
theorem C6_sorted_messages (l : List DashMessage) :
    ((sortMessages l).Pairwise fun a b =>
        reactionCount b < reactionCount a ∨
          (reactionCount a = reactionCount b ∧ b.created_at ≤ a.created_at))
    ∧ ∀ a b, reactionCount a = reactionCount b → a.created_at = b.created_at →
        [a, b].Sublist l → [a, b].Sublist (sortMessages l) := by
  constructor
  · exact (List.sorted_mergeSort feedLe_trans feedLe_total l).imp
      fun h => (feedLe_iff _ _).mp h
  · intro a b h1 h2 hsub
    exact List.pair_sublist_mergeSort feedLe_trans feedLe_total
      ((feedLe_iff a b).mpr (Or.inr ⟨h1, le_of_eq h2.symm⟩)) hsub

/-- Witness for C6: two fully tied messages keep their order through the
sort. -/
theorem C6_sorted_messages_witness :
    [tiedA, tiedB].Sublist (sortMessages [tiedA, tiedB]) :=
  (C6_sorted_messages [tiedA, tiedB]).2 tiedA tiedB rfl rfl (List.Sublist.refl _)

/-- C7: for every filtered list and page, the displayed page is the slice
from (p − 1) · 10 to p · 10 of the list, hence holds at most 10 messages,
and concatenating pages 1 through `totalPages` reproduces the filtered
list exactly. -/
theorem C7_pagination (l : List DashMessage) :
    (∀ p, (paginatedMessages l p).length ≤ MESSAGES_PER_PAGE)
    ∧ (∀ p, 1 ≤ p →
        paginatedMessages l p
          = (l.drop ((p - 1) * MESSAGES_PER_PAGE)).take MESSAGES_PER_PAGE)
    ∧ allPages l = l := by
  refine ⟨?_, ?_, ?_⟩
  · intro p
    simp [paginatedMessages, jsSlice, List.length_take, MESSAGES_PER_PAGE]
    omega
  · intro p hp
    have hk : p * MESSAGES_PER_PAGE - (p - 1) * MESSAGES_PER_PAGE = MESSAGES_PER_PAGE := by
      simp only [MESSAGES_PER_PAGE]
      omega
    simp [paginatedMessages, jsSlice, hk]
  · have hpt : ∀ i : Nat, paginatedMessages l (i + 1)
        = (l.drop (i * MESSAGES_PER_PAGE)).take MESSAGES_PER_PAGE := by
      intro i
      have hk : (i + 1) * MESSAGES_PER_PAGE - i * MESSAGES_PER_PAGE = MESSAGES_PER_PAGE := by
        simp only [MESSAGES_PER_PAGE]
        omega
      simp [paginatedMessages, jsSlice, hk]
    unfold allPages
    simp only [hpt]
    rw [join_chunks MESSAGES_PER_PAGE l (totalPages l)]
    apply List.take_of_length_le
    simp only [totalPages, MESSAGES_PER_PAGE]
    omega

/-- Witness for C7 at page 1 of a concrete five-element list. -/
theorem C7_pagination_witness :
    paginatedMessages hotExample 1
      = (hotExample.drop ((1 - 1) * MESSAGES_PER_PAGE)).take MESSAGES_PER_PAGE :=
  (C7_pagination hotExample).2.1 1 (by decide)

/-- C8 counterexample: not every client-side operation surfaces its failure
via a blocking alert — the `fetchMessages` catch block only logs. -/
theorem C8_counterexample :
    ¬ ∀ p ∈ clientCatchPolicies,
        p.caught = true ∧ p.logsError = true ∧ p.showsAlert = true := by
  decide

/-- C8 (amended): every one of the six client-side operations catches and
logs its failures; marking reviewed, deleting, replying and toggling reply
visibility surface the failure via a blocking alert; fetching messages is
caught and logged only, and submitting creator feedback is surfaced via an
inline error message instead of an alert. -/
theorem C8_catch_policies :
    (∀ p ∈ clientCatchPolicies, p.caught = true ∧ p.logsError = true)
    ∧ markReviewedCatch.showsAlert = true
    ∧ deleteMessageCatch.showsAlert = true
    ∧ replyCatch.showsAlert = true
    ∧ toggleReplyVisibilityCatch.showsAlert = true
    ∧ fetchMessagesCatch.showsAlert = false
    ∧ fetchMessagesCatch.showsInlineError = false
    ∧ submitSupportFeedbackCatch.showsAlert = false
    ∧ submitSupportFeedbackCatch.showsInlineError = true := by
  decide

/-- Witness for the amended C8 at the `fetchMessages` catch policy. -/
theorem C8_catch_policies_witness :
    fetchMessagesCatch.caught = true ∧ fetchMessagesCatch.logsError = true :=
  C8_catch_policies.1 fetchMessagesCatch (by decide)

/-- C9: every fetched message appears in the inbox tab or the reviewed tab;
a reply-less message with the reviewed flag set appears in both; and the
pending count equals the number of inbox messages whose reviewed flag is
not set, so pending never exceeds the inbox count. -/
theorem C9_tab_invariants (msgs : List DashMessage) (m : DashMessage) :
    (m ∈ msgs → m ∈ inboxMessages msgs ∨ m ∈ reviewedMessages msgs)
    ∧ (m ∈ msgs → hasNoReplies m = true → m.reviewed = true →
        m ∈ inboxMessages msgs ∧ m ∈ reviewedMessages msgs)
    ∧ (pendingMessages msgs).length
        = ((inboxMessages msgs).filter fun x => !x.reviewed).length
    ∧ (pendingMessages msgs).length ≤ (inboxMessages msgs).length := by
  have h3 : pendingMessages msgs = (inboxMessages msgs).filter fun x => !x.reviewed := by
    unfold pendingMessages inboxMessages
    rw [List.filter_filter]
  refine ⟨?_, ?_, by rw [h3], by rw [h3]; exact List.length_filter_le _ _⟩
  · intro hm
    by_cases hr : hasNoReplies m = true
    · exact Or.inl (List.mem_filter.mpr ⟨hm, hr⟩)
    · refine Or.inr (List.mem_filter.mpr ⟨hm, ?_⟩)
      have hrep : hasReplies m = true := by
        unfold hasNoReplies at hr
        unfold hasReplies
        match hmr : m.reply with
        | none => rw [hmr] at hr; simp at hr
        | some rs => rw [hmr] at hr; simpa using hr
      simp [hrep]
  · intro hm h1 h2
    exact ⟨List.mem_filter.mpr ⟨hm, h1⟩, List.mem_filter.mpr ⟨hm, by simp [h2]⟩⟩

/-- Witness for C9: a reviewed reply-less message lands in both tabs. -/
theorem C9_tab_invariants_witness :
    reviewedNoReplyMsg ∈ inboxMessages [reviewedNoReplyMsg]
      ∧ reviewedNoReplyMsg ∈ reviewedMessages [reviewedNoReplyMsg] :=
  (C9_tab_invariants [reviewedNoReplyMsg] reviewedNoReplyMsg).2.1
    (by decide) (by decide) (by decide)

/-- C10: whenever the route responds with HTTP 201, the body carries a
persisted record whose message is a non-empty string without leading or
trailing whitespace, whose subject is either null or a non-empty string
without leading or trailing whitespace, and a whitespace-only submitted
subject is stored as null. -/
theorem C10_trimmed_on_201 (auth : Except String AuthCtx)
    (body : Except String ReqBody) (creator : Option Creator)
    (insert : InsertOutcome)
    (h : (POST auth body creator insert).status = 201) :
    ∃ row, (POST auth body creator insert).body = RespBody.data row
      ∧ row.message ≠ "" ∧ noEdgeWhitespace row.message
      ∧ (row.subject = none ∨ ∃ s, row.subject = some s ∧ s ≠ "" ∧ noEdgeWhitespace s)
      ∧ (∀ b s, body = Except.ok b → b.subject = some (JsValue.vstr s) →
          s.data.all isJsWhitespace = true → row.subject = none) := by
  rcases auth with msg | a
  · by_cases htu : strIncludes msg "Unauthorized" <;> simp [POST, tryPOST, htu] at h
  rcases ha : a.companyId with _ | cid
  · simp [POST, tryPOST, ha] at h
  by_cases hcid : cid = ""
  · subst hcid; simp [POST, tryPOST, ha] at h
  have hcid2 : (cid == "") = false := by simpa using hcid
  rcases body with e | b
  · by_cases htu : strIncludes e "Unauthorized" <;> simp [POST, tryPOST, ha, hcid2, htu] at h
  rcases hbc : b.category with _ | v
  · simp [POST, tryPOST, ha, hcid2, hbc] at h
  cases v with
  | vnum n => simp [POST, tryPOST, ha, hcid2, hbc] at h
  | vbool bb => simp [POST, tryPOST, ha, hcid2, hbc] at h
  | vnull => simp [POST, tryPOST, ha, hcid2, hbc] at h
  | vother => simp [POST, tryPOST, ha, hcid2, hbc] at h
  | vstr c =>
  by_cases hce : c = ""
  · simp [POST, tryPOST, jsTruthy, ha, hcid2, hbc, hce] at h
  by_cases hcm : c ∈ ALLOWED_CATEGORIES
  case neg => simp [POST, tryPOST, jsTruthy, ha, hcid2, hbc, hce, hcm] at h
  rcases hbm : b.message with _ | w
  · simp [POST, tryPOST, jsTruthy, ha, hcid2, hbc, hce, hcm, hbm] at h
  cases w with
  | vnum n => simp [POST, tryPOST, jsTruthy, ha, hcid2, hbc, hce, hcm, hbm] at h
  | vbool bb => simp [POST, tryPOST, jsTruthy, ha, hcid2, hbc, hce, hcm, hbm] at h
  | vnull => simp [POST, tryPOST, jsTruthy, ha, hcid2, hbc, hce, hcm, hbm] at h
  | vother => simp [POST, tryPOST, jsTruthy, ha, hcid2, hbc, hce, hcm, hbm] at h
  | vstr m =>
  by_cases hme : m = ""
  · simp [POST, tryPOST, jsTruthy, ha, hcid2, hbc, hce, hcm, hbm, hme] at h
  by_cases hmt : jsTrim m = ""
  · simp [POST, tryPOST, jsTruthy, ha, hcid2, hbc, hce, hcm, hbm, hme, hmt] at h
  rcases creator with _ | cr
  · simp [POST, tryPOST, jsTruthy, ha, hcid2, hbc, hce, hcm, hbm, hme, hmt] at h
  rcases hbs : b.subject with _ | u
  · rcases insert with _ | ⟨rid, t⟩
    · simp [POST, tryPOST, jsTruthy, subjectTrim, ha, hcid2, hbc, hce, hcm, hbm, hme, hmt, hbs] at h
    · refine ⟨⟨rid, cr.id, cid, a.userId, c, none, jsTrim m, t⟩,
        by simp [POST, tryPOST, jsTruthy, subjectTrim, ha, hcid2, hbc, hce, hcm, hbm, hme, hmt, hbs],
        hmt, noEdgeWhitespace_jsTrim m, Or.inl rfl, ?_⟩
      intro b' s' hb' hbs' _
      cases hb'
      rw [hbs] at hbs'
  cases u with
  | vnull =>
    rcases insert with _ | ⟨rid, t⟩
    · simp [POST, tryPOST, jsTruthy, subjectTrim, ha, hcid2, hbc, hce, hcm, hbm, hme, hmt, hbs] at h
    · refine ⟨⟨rid, cr.id, cid, a.userId, c, none, jsTrim m, t⟩,
        by simp [POST, tryPOST, jsTruthy, subjectTrim, ha, hcid2, hbc, hce, hcm, hbm, hme, hmt, hbs],
        hmt, noEdgeWhitespace_jsTrim m, Or.inl rfl, ?_⟩
      intro b' s' hb' hbs' _
      cases hb'
      rw [hbs] at hbs'
  | vnum n =>
    by_cases htu : strIncludes "subject.trim is not a function" "Unauthorized" <;>
      simp [POST, tryPOST, jsTruthy, subjectTrim, ha, hcid2, hbc, hce, hcm, hbm, hme, hmt, hbs, htu] at h
  | vbool bb =>
    by_cases htu : strIncludes "subject.trim is not a function" "Unauthorized" <;>
      simp [POST, tryPOST, jsTruthy, subjectTrim, ha, hcid2, hbc, hce, hcm, hbm, hme, hmt, hbs, htu] at h
  | vother =>
    by_cases htu : strIncludes "subject.trim is not a function" "Unauthorized" <;>
      simp [POST, tryPOST, jsTruthy, subjectTrim, ha, hcid2, hbc, hce, hcm, hbm, hme, hmt, hbs, htu] at h
  | vstr s =>
    by_cases hst : jsTrim s = ""
    · rcases insert with _ | ⟨rid, t⟩
      · simp [POST, tryPOST, jsTruthy, subjectTrim, ha, hcid2, hbc, hce, hcm, hbm, hme, hmt, hbs, hst] at h
      · refine ⟨⟨rid, cr.id, cid, a.userId, c, none, jsTrim m, t⟩,
          by simp [POST, tryPOST, jsTruthy, subjectTrim, ha, hcid2, hbc, hce, hcm, hbm, hme, hmt, hbs, hst],
          hmt, noEdgeWhitespace_jsTrim m, Or.inl rfl, ?_⟩
        intro b' s' hb' hbs' _
        cases hb'
        rfl
    · rcases insert with _ | ⟨rid, t⟩
      · simp [POST, tryPOST, jsTruthy, subjectTrim, ha, hcid2, hbc, hce, hcm, hbm, hme, hmt, hbs, hst] at h
      · refine ⟨⟨rid, cr.id, cid, a.userId, c, some (jsTrim s), jsTrim m, t⟩,
          by simp [POST, tryPOST, jsTruthy, subjectTrim, ha, hcid2, hbc, hce, hcm, hbm, hme, hmt, hbs, hst],
          hmt, noEdgeWhitespace_jsTrim m, Or.inr ⟨jsTrim s, rfl, hst, noEdgeWhitespace_jsTrim s⟩, ?_⟩
        intro b' s' hb' hbs' hall
        cases hb'
        rw [hbs] at hbs'
        cases hbs'
        exact absurd (jsTrim_of_all_whitespace hall) hst

/-- Witness for C10 at a concrete 201 response with a whitespace-only
subject. -/
theorem C10_trimmed_on_201_witness :
    ∃ row,
      (POST (.ok ⟨some "company-1", some "user-1"⟩)
          (.ok ⟨some (JsValue.vstr "bug"), some (JsValue.vstr " hi "),
            some (JsValue.vstr "  ")⟩)
          (some ⟨"creator-1"⟩) (.ok "row-1" 0)).body = RespBody.data row
      ∧ row.message ≠ "" ∧ noEdgeWhitespace row.message
      ∧ (row.subject = none ∨ ∃ s, row.subject = some s ∧ s ≠ "" ∧ noEdgeWhitespace s)
      ∧ (∀ b s,
          (Except.ok ⟨some (JsValue.vstr "bug"), some (JsValue.vstr " hi "),
              some (JsValue.vstr "  ")⟩ : Except String ReqBody) = Except.ok b →
          b.subject = some (JsValue.vstr s) →
          s.data.all isJsWhitespace = true → row.subject = none) :=
  C10_trimmed_on_201 (.ok ⟨some "company-1", some "user-1"⟩)
    (.ok ⟨some (JsValue.vstr "bug"), some (JsValue.vstr " hi "),
      some (JsValue.vstr "  ")⟩)
    (some ⟨"creator-1"⟩) (.ok "row-1" 0) (by decide)
